import Mathlib

/-!
Verification of the Fabric OpenAI plugin core: the endpoint classifier and
header-injecting transport of copilot_transport.go, the citation collation
algorithm written out in TestCitationFormatting of openai_test.go, and the
request builder described by the spec (its Go body is not among the provided
sources, only its tests are).

Strings are modelled by Lean String; Go byte strings in this code base are
ASCII in every case the classifier and transport exercise, and character case
mapping is modelled at ASCII granularity (Char.toLower, Char.toUpper), which
agrees with the Go unicode simple case mapping on the ASCII range.
-/

namespace Fabric

/-! ## Endpoint classifier: isGitHubCopilotURL (copilot_transport.go, lines 28 to 30) -/

/-- Model of the Go test `len(pat) <= len(s) and pat matches the front of s`,
the inner step of substring search. -/
def hasPfx : List Char → List Char → Bool
  | _, [] => true
  | [], _ :: _ => false
  | a :: as, b :: bs => a == b && hasPfx as bs

/-- Model of Go strings.Contains s pat: pat occurs contiguously inside s.
Contains of the empty pattern is true, as in Go. -/
def containsSub : List Char → List Char → Bool
  | [], pat => pat.isEmpty
  | a :: rest, pat => hasPfx (a :: rest) pat || containsSub rest pat

/-- Model of Go strings.ToLower at ASCII granularity: lower-case every
character. -/
def strToLower (s : String) : String :=
  String.mk (s.data.map Char.toLower)

/-- The fixed marker substring of copilot_transport.go line 29. -/
def copilotMarker : String := "api.githubcopilot.com"

/-- Model of isGitHubCopilotURL (copilot_transport.go lines 28 to 30):
`strings.Contains(strings.ToLower(url), "api.githubcopilot.com")`. -/
def isGitHubCopilotURL (url : String) : Bool :=
  containsSub (strToLower url).data copilotMarker.data

/-- Host component of a URL string, used only to state that the classifier
ignores the host/path distinction: the text after the first "://" up to the
next slash, question mark or hash. -/
def dropScheme : List Char → List Char
  | [] => []
  | ':' :: '/' :: '/' :: rest => rest
  | _ :: rest => dropScheme rest

/-- Host extraction for stating claim C9; not part of the Go code, which never
parses the URL. -/
def urlHost (url : String) : String :=
  String.mk ((dropScheme url.data).takeWhile (fun c => c != '/' && c != '?' && c != '#'))

/-! ## Citation collation (openai_test.go, TestCitationFormatting lines 138 to 164) -/

/-- A citation entry as extracted from the provider response: a URL and a
title. -/
structure Citation where
  url : String
  title : String
deriving DecidableEq

/-- The identity key of the Go loop: `citation.URL + "|" + citation.Title`. -/
def citationKey (c : Citation) : String :=
  c.url ++ "|" ++ c.title

/-- The rendered line of the Go loop:
`"- [" + citation.Title + "](" + citation.URL + ")"`. -/
def renderCitation (c : Citation) : String :=
  "- [" ++ c.title ++ "](" ++ c.url ++ ")"

/-- Membership in the set of seen keys; Go uses `citationMap[citationKey]`,
a map lookup with exact case-sensitive string equality. -/
def seenHas : List String → String → Bool
  | [], _ => false
  | k :: ks, key => key == k || seenHas ks key

/-- The dedup-and-render loop of TestCitationFormatting: for each entry
compute its key; skip it if seen, otherwise mark it seen and append its
rendered line. -/
def collateAux : List String → List Citation → List String
  | _, [] => []
  | seen, c :: rest =>
    if seenHas seen (citationKey c) then collateAux seen rest
    else renderCitation c :: collateAux (citationKey c :: seen) rest

/-- The citation collator: the Go loop started with an empty seen map. -/
def collate (cs : List Citation) : List String :=
  collateAux [] cs

/-- The result assembly of TestCitationFormatting:
`if len(citations) > 0 { result += "\n\n## Sources\n\n" + strings.Join(citations, "\n") }`. -/
def formatWithCitations (text : String) (cs : List Citation) : String :=
  let citations := collate cs
  if 0 < citations.length then
    text ++ "\n\n## Sources\n\n" ++ String.intercalate "\n" citations
  else text

/-- First occurrence of each citation key, in input order: the entries the
loop keeps, stated independently of rendering. -/
def firstOccAux : List String → List Citation → List Citation
  | _, [] => []
  | seen, c :: rest =>
    if seenHas seen (citationKey c) then firstOccAux seen rest
    else c :: firstOccAux (citationKey c :: seen) rest

/-- First-seen unique entries of the whole input. -/
def firstOccurrences (cs : List Citation) : List Citation :=
  firstOccAux [] cs

example : isGitHubCopilotURL "https://api.githubcopilot.com" = true := by decide
example : isGitHubCopilotURL "https://API.GITHUBCOPILOT.COM" = true := by decide
example : isGitHubCopilotURL "http://localhost:11434" = false := by decide
example : urlHost "https://example.com/?u=x" = "example.com" := by decide
example : collate [⟨"a", "b"⟩, ⟨"a", "b"⟩] = [renderCitation ⟨"a", "b"⟩] := by decide

/-! ## Header maps, canonicalisation, and the Copilot transport
(copilot_transport.go, lines 7 to 25; header semantics from net/http and
net/textproto, which Header.Set and Header.Get delegate to) -/

/-- Characters valid in a header field name per the Go net/textproto token
table: ASCII letters and digits plus the listed punctuation. Char.ofNat 39 is
the apostrophe, Char.ofNat 96 the grave accent. -/
def isTokenChar (c : Char) : Bool :=
  c.isAlphanum ||
    [ '!', '#', '$', '%', '&', Char.ofNat 39, '*', '+', '-', '.',
      '^', '_', Char.ofNat 96, '|', '~'].contains c

/-- Worker of canonicalMIMEHeaderKey: upper-case the first letter and each
letter after a hyphen, lower-case the rest; fail (none) on any invalid byte,
in which case the original string is kept. -/
def canonAux : Bool → List Char → Option (List Char)
  | _, [] => some []
  | up, c :: cs =>
    if isTokenChar c then
      let d := if up then c.toUpper else c.toLower
      match canonAux (d == '-') cs with
      | some ds => some (d :: ds)
      | none => none
    else none

/-- Model of Go textproto.CanonicalMIMEHeaderKey: canonical word-capitalised
form of a valid token, the input unchanged otherwise. -/
def canonicalHeaderKey (s : String) : String :=
  match canonAux true s.data with
  | some ds => String.mk ds
  | none => s

/-- A header map, Go map[string][]string, as an association list keyed by
canonical header names. Map iteration order is unobservable through Get and
Values, so the list order carries no meaning. -/
abbrev Header := List (String × List String)

/-- Map assignment h[ck] = vs for an already canonical key: replace the entry
if present, append it otherwise. -/
def setCanonKey : Header → String → List String → Header
  | [], ck, vs => [(ck, vs)]
  | p :: rest, ck, vs =>
    if p.1 == ck then (ck, vs) :: rest else p :: setCanonKey rest ck vs

/-- Map lookup h[ck] for an already canonical key, nil (here []) if absent. -/
def valuesCanonKey : Header → String → List String
  | [], _ => []
  | p :: rest, ck => if p.1 == ck then p.2 else valuesCanonKey rest ck

/-- Model of Go Header.Set: `h[CanonicalMIMEHeaderKey(key)] = []string{value}`. -/
def headerSet (h : Header) (k v : String) : Header :=
  setCanonKey h (canonicalHeaderKey k) [v]

/-- Model of Go Header.Values: all values stored under the canonical key. -/
def headerValues (h : Header) (k : String) : List String :=
  valuesCanonKey h (canonicalHeaderKey k)

/-- Model of Go Header.Get: the first value under the canonical key, or the
empty string. -/
def headerGet (h : Header) (k : String) : String :=
  match headerValues h k with
  | v :: _ => v
  | [] => ""

/-- An outbound HTTP request: its header map plus a payload standing for
every other field (method, URL, body, context), which Request.Clone copies
verbatim. -/
structure Request where
  header : Header
  payload : String

/-- Model of req.Clone(req.Context()) (copilot_transport.go line 21): a deep
copy of the request, headers included; mutation of the copy never reaches the
original, which the purely functional reading renders as a fresh value. -/
def Request.clone (req : Request) : Request :=
  { header := req.header, payload := req.payload }

/-- The transport of copilot_transport.go: a wrapped base round tripper,
polymorphic in the response and error types of the underlying executor. -/
structure CopilotTransport (ρ ε : Type) where
  base : Request → Except ε ρ

/-- The request the base round tripper receives (copilot_transport.go lines
21 to 23): the clone of the incoming request with the fixed version header
set on it. -/
def forwardedRequest (req : Request) : Request :=
  let newReq := req.clone
  { newReq with header := headerSet newReq.header "X-GitHub-Api-Version" "2023-05-01" }

/-- Model of CopilotTransport.RoundTrip (copilot_transport.go lines 20 to
25): build the annotated clone and return the base round tripper verdict on
it unchanged. -/
def CopilotTransport.roundTrip {ρ ε : Type} (t : CopilotTransport ρ ε) (req : Request) :
    Except ε ρ :=
  t.base (forwardedRequest req)

example : canonicalHeaderKey "x-github-api-version" = "X-Github-Api-Version" := by decide
example : canonicalHeaderKey "X-GitHub-Api-Version" = "X-Github-Api-Version" := by decide
example : headerGet (headerSet [] "X-GitHub-Api-Version" "2023-05-01") "x-github-api-version" = "2023-05-01" := by decide

/-! ## Request builder (spec section 4.1).
The Go function buildResponseParams lives in a file that is not among the
provided sources; only its tests (openai_test.go) are. The data model below
mirrors the fields those tests exercise. -/

/-- A chat message as the tests construct it: a role tag and content text. -/
structure ChatMessage where
  role : String
  content : String

/-- Modelled from the spec: the ChatOptions input value of spec section 3;
the Go type domain.ChatOptions is not among the provided sources. maxTokens
is a Go int whose zero value means absent, matching the spec rule that only
a present and nonzero maxTokens is forwarded; searchLocation empty means
absent. -/
structure ChatOptions where
  model : String
  temperature : Rat
  topP : Rat
  raw : Bool
  maxTokens : Int
  search : Bool
  searchLocation : String

/-- Modelled from the spec: the UserLocation of a web-search tool, with an
optional timezone whose presence is independently queryable. -/
structure SearchUserLocation where
  type : String
  timezone : Option String
deriving DecidableEq

/-- Modelled from the spec: the single WebSearch tool variant, with the fixed
type tag and an optional user location. -/
structure WebSearchTool where
  type : String
  userLocation : Option SearchUserLocation
deriving DecidableEq

/-- Modelled from the spec: the ProviderRequest output value of spec section
3. Option models the presence-carrying optional fields (param.Opt and the
nil-able tools slice of the Go SDK): none is queryable as not set and is
distinct from a zero or empty value. -/
structure ProviderRequest where
  model : String
  temperature : Rat
  topP : Rat
  maxOutputTokens : Option Int
  tools : Option (List WebSearchTool)

/-- Modelled from the spec: buildResponseParams (spec section 4.1), whose Go
body is not among the provided sources. Copies model, temperature and topP
verbatim; sets maxOutputTokens iff maxTokens is nonzero; when search is
enabled appends exactly one web_search_preview tool, with an approximate
UserLocation carrying the timezone exactly when searchLocation is non-empty. -/
def buildResponseParams (_msgs : List ChatMessage) (opts : ChatOptions) : ProviderRequest :=
  { model := opts.model
    temperature := opts.temperature
    topP := opts.topP
    maxOutputTokens := if opts.maxTokens ≠ 0 then some opts.maxTokens else none
    tools :=
      if opts.search then
        some [⟨"web_search_preview",
          if opts.searchLocation ≠ "" then
            some ⟨"approximate", some opts.searchLocation⟩
          else none⟩]
      else none }

/-! ## Helper lemmas -/

/-- Setting one canonical key leaves the values of every other key unchanged. -/
theorem valuesCanonKey_setCanonKey_ne (h : Header) (ck ck2 : String) (vs : List String)
    (hne : ck2 ≠ ck) :
    valuesCanonKey (setCanonKey h ck vs) ck2 = valuesCanonKey h ck2 := by
  induction h with
  | nil => simp [setCanonKey, valuesCanonKey, beq_eq_false_iff_ne.mpr (Ne.symm hne)]
  | cons p rest ih =>
    by_cases hp : p.1 = ck
    · simp [setCanonKey, valuesCanonKey, hp, beq_eq_false_iff_ne.mpr (Ne.symm hne)]
    · simp [setCanonKey, valuesCanonKey, beq_eq_false_iff_ne.mpr hp, ih]

/-- Setting a canonical key makes exactly the given values readable under it. -/
theorem valuesCanonKey_setCanonKey_self (h : Header) (ck : String) (vs : List String) :
    valuesCanonKey (setCanonKey h ck vs) ck = vs := by
  induction h with
  | nil => simp [setCanonKey, valuesCanonKey]
  | cons p rest ih =>
    by_cases hp : p.1 = ck
    · simp [setCanonKey, valuesCanonKey, hp]
    · simp [setCanonKey, valuesCanonKey, beq_eq_false_iff_ne.mpr hp, ih]

/-- Two citation keys with the same url agree iff the titles do. -/
theorem citationKey_eq_title {u t1 t2 : String}
    (he : citationKey ⟨u, t1⟩ = citationKey ⟨u, t2⟩) : t1 = t2 := by
  have h2 : u.data ++ ("|".data ++ t1.data) = u.data ++ ("|".data ++ t2.data) := by
    simpa [citationKey, String.data_append] using congrArg String.data he
  exact String.ext (List.append_cancel_left (List.append_cancel_left h2))

/-- Two citation keys with the same title agree iff the urls do. -/
theorem citationKey_eq_url {u1 u2 t : String}
    (he : citationKey ⟨u1, t⟩ = citationKey ⟨u2, t⟩) : u1 = u2 := by
  have h2 : u1.data ++ ("|".data ++ t.data) = u2.data ++ ("|".data ++ t.data) := by
    simpa [citationKey, String.data_append] using congrArg String.data he
  exact String.ext (List.append_cancel_right h2)

/-- The collation loop renders exactly the first occurrence of each key, in
input order, whatever keys are already marked seen. -/
theorem collateAux_eq_firstOccAux (cs : List Citation) :
    ∀ seen : List String, collateAux seen cs = (firstOccAux seen cs).map renderCitation := by
  induction cs with
  | nil => intro seen; rfl
  | cons c rest ih =>
    intro seen
    cases hB : seenHas seen (citationKey c) <;> simp [collateAux, firstOccAux, hB, ih]

/-! ## Claims -/

/-- C1: isGitHubCopilotURL is a pure total function on strings that performs
a case-insensitive substring match for the marker api.githubcopilot.com: it
lowers the whole string and checks containment, returning true on the Copilot
base URL, a Copilot URL with a path, and the upper-case variant, and false on
the OpenAI URL, the empty string, and a local endpoint. -/
theorem claim_C1_classifier :
    (∀ url : String,
        isGitHubCopilotURL url = containsSub (strToLower url).data copilotMarker.data)
    ∧ isGitHubCopilotURL "https://api.githubcopilot.com" = true
    ∧ isGitHubCopilotURL "https://api.githubcopilot.com/v1/chat" = true
    ∧ isGitHubCopilotURL "https://API.GITHUBCOPILOT.COM" = true
    ∧ isGitHubCopilotURL "https://api.openai.com/v1" = false
    ∧ isGitHubCopilotURL "" = false
    ∧ isGitHubCopilotURL "http://localhost:11434" = false := by
  refine ⟨fun url => rfl, ?_, ?_, ?_, ?_, ?_, ?_⟩ <;> decide

/-- C9: the classifier matches the marker anywhere in the string, not only in
the host component: a URL whose host is example.com but whose query carries
the marker is classified as a Copilot endpoint. -/
theorem claim_C9_substring_not_host :
    isGitHubCopilotURL "https://example.com/?u=api.githubcopilot.com" = true
    ∧ urlHost "https://example.com/?u=api.githubcopilot.com" = "example.com"
    ∧ containsSub
        (strToLower (urlHost "https://example.com/?u=api.githubcopilot.com")).data
        copilotMarker.data = false := by
  refine ⟨?_, ?_, ?_⟩ <;> decide

/-- C6: collate deduplicates by exact key, renders one line per unique entry
in first-seen order (on [A, B, A] with distinct keys: exactly the two lines
A then B), yields no lines on an empty input, and the assembled result
carries the Sources header with its blank separator exactly when the entry
list is non-empty. -/
theorem claim_C6_collate :
    (∀ A B : Citation, citationKey A ≠ citationKey B →
        collate [A, B, A] = [renderCitation A, renderCitation B])
    ∧ collate [] = ([] : List String)
    ∧ (∀ text : String, formatWithCitations text [] = text)
    ∧ (∀ (text : String) (cs : List Citation), cs ≠ [] →
        formatWithCitations text cs =
          text ++ "\n\n## Sources\n\n" ++ String.intercalate "\n" (collate cs)) := by
  refine ⟨?_, rfl, ?_, ?_⟩
  · intro A B h
    have hAB : (citationKey A == citationKey B) = false := beq_eq_false_iff_ne.mpr h
    have hBA : (citationKey B == citationKey A) = false := beq_eq_false_iff_ne.mpr (Ne.symm h)
    simp [collate, collateAux, seenHas, hAB, hBA]
  · intro text
    simp [formatWithCitations, collate, collateAux]
  · intro text cs h
    obtain ⟨c, rest, rfl⟩ := List.exists_cons_of_ne_nil h
    simp [formatWithCitations, collate, collateAux, seenHas]

/-- C6 witness: the mock citations of TestCitationFormatting collapse to two
rendered lines in first-seen order, and a non-empty input gets the Sources
section. -/
theorem claim_C6_collate_witness :
    collate [⟨"https://example.com/ai-research", "AI Research Advances 2025"⟩,
             ⟨"https://another-source.com/tech-news", "Technology News Today"⟩,
             ⟨"https://example.com/ai-research", "AI Research Advances 2025"⟩]
      = [renderCitation ⟨"https://example.com/ai-research", "AI Research Advances 2025"⟩,
         renderCitation ⟨"https://another-source.com/tech-news", "Technology News Today"⟩]
    ∧ formatWithCitations "T" [⟨"u", "t"⟩]
      = "T" ++ "\n\n## Sources\n\n" ++ String.intercalate "\n" (collate [⟨"u", "t"⟩]) :=
  ⟨claim_C6_collate.1 _ _ (by decide), claim_C6_collate.2.2.2 "T" _ (by decide)⟩

/-- C7: entries sharing a url but differing in title are both rendered,
entries sharing a title but differing in url are both rendered, and in
general collate renders exactly the first occurrence of each key in input
order, wherever later duplicates appear. -/
theorem claim_C7_distinct_and_order :
    (∀ u t1 t2 : String, t1 ≠ t2 →
        collate [⟨u, t1⟩, ⟨u, t2⟩] = [renderCitation ⟨u, t1⟩, renderCitation ⟨u, t2⟩])
    ∧ (∀ u1 u2 t : String, u1 ≠ u2 →
        collate [⟨u1, t⟩, ⟨u2, t⟩] = [renderCitation ⟨u1, t⟩, renderCitation ⟨u2, t⟩])
    ∧ (∀ cs : List Citation, collate cs = (firstOccurrences cs).map renderCitation) := by
  refine ⟨?_, ?_, ?_⟩
  · intro u t1 t2 h
    have hk : citationKey ⟨u, t2⟩ ≠ citationKey ⟨u, t1⟩ :=
      fun he => (Ne.symm h) (citationKey_eq_title he)
    simp [collate, collateAux, seenHas, beq_eq_false_iff_ne.mpr hk]
  · intro u1 u2 t h
    have hk : citationKey ⟨u2, t⟩ ≠ citationKey ⟨u1, t⟩ :=
      fun he => (Ne.symm h) (citationKey_eq_url he)
    simp [collate, collateAux, seenHas, beq_eq_false_iff_ne.mpr hk]
  · intro cs
    exact collateAux_eq_firstOccAux cs []

/-- C7 witness: concrete same-url and same-title pairs are both kept. -/
theorem claim_C7_distinct_and_order_witness :
    collate [⟨"u", "t1"⟩, ⟨"u", "t2"⟩]
      = [renderCitation ⟨"u", "t1"⟩, renderCitation ⟨"u", "t2"⟩]
    ∧ collate [⟨"u1", "t"⟩, ⟨"u2", "t"⟩]
      = [renderCitation ⟨"u1", "t"⟩, renderCitation ⟨"u2", "t"⟩] :=
  ⟨claim_C7_distinct_and_order.1 "u" "t1" "t2" (by decide),
   claim_C7_distinct_and_order.2.1 "u1" "u2" "t" (by decide)⟩

/-- C10: the identity key is url ++ "|" ++ title, and it is not injective:
the distinct entries ("a|b", "c") and ("a", "b|c") share the key "a|b|c", so
the second is dropped as a duplicate of the first. -/
theorem claim_C10_key_collision :
    (∀ c : Citation, citationKey c = c.url ++ "|" ++ c.title)
    ∧ citationKey ⟨"a|b", "c"⟩ = citationKey ⟨"a", "b|c"⟩
    ∧ (⟨"a|b", "c"⟩ : Citation) ≠ ⟨"a", "b|c"⟩
    ∧ collate [⟨"a|b", "c"⟩, ⟨"a", "b|c"⟩] = [renderCitation ⟨"a|b", "c"⟩] :=
  ⟨fun _ => rfl, by decide, by decide, by decide⟩

/-- C2: the transport forwards a clone: every header of the original request
whose canonical name differs from the injected version header keeps exactly
its values on the forwarded clone (none removed, none altered), and the
non-header payload is carried over verbatim. The original request itself is
untouched, which the purely functional model of Request.clone renders by the
forwarded request being a fresh value computed from the original. -/
theorem claim_C2_preserves_headers (req : Request) (k : String)
    (hk : canonicalHeaderKey k ≠ canonicalHeaderKey "X-GitHub-Api-Version") :
    headerValues (forwardedRequest req).header k = headerValues req.header k
    ∧ (forwardedRequest req).payload = req.payload := by
  constructor
  · exact valuesCanonKey_setCanonKey_ne _ _ _ _ hk
  · rfl

/-- C2 witness: on a request with Authorization and Content-Type set, both
survive the forwarding unchanged, as does the payload. -/
theorem claim_C2_preserves_headers_witness :
    (headerValues
        (forwardedRequest
          ⟨[("Authorization", ["Bearer X"]), ("Content-Type", ["application/json"])],
            "body"⟩).header "Authorization"
      = headerValues
          ([("Authorization", ["Bearer X"]), ("Content-Type", ["application/json"])] :
            Header) "Authorization"
      ∧ (forwardedRequest
          ⟨[("Authorization", ["Bearer X"]), ("Content-Type", ["application/json"])],
            "body"⟩).payload = "body")
    ∧ (headerValues
        (forwardedRequest
          ⟨[("Authorization", ["Bearer X"]), ("Content-Type", ["application/json"])],
            "body"⟩).header "Content-Type"
      = headerValues
          ([("Authorization", ["Bearer X"]), ("Content-Type", ["application/json"])] :
            Header) "Content-Type"
      ∧ (forwardedRequest
          ⟨[("Authorization", ["Bearer X"]), ("Content-Type", ["application/json"])],
            "body"⟩).payload = "body") :=
  ⟨claim_C2_preserves_headers _ "Authorization" (by decide),
   claim_C2_preserves_headers _ "Content-Type" (by decide)⟩

/-- C3: the forwarded clone always reads back exactly 2023-05-01 under
X-GitHub-Api-Version, for every incoming request, and in particular also when
the caller had already set that header to any other value: this layer wins
for this header. -/
theorem claim_C3_version_header :
    ∀ (req : Request) (v : String),
      headerGet (forwardedRequest req).header "X-GitHub-Api-Version" = "2023-05-01"
      ∧ headerGet
          (forwardedRequest
            { req with header := headerSet req.header "X-GitHub-Api-Version" v }).header
          "X-GitHub-Api-Version" = "2023-05-01" := by
  intro req v
  constructor <;>
  · show headerGet (headerSet _ "X-GitHub-Api-Version" "2023-05-01") _ = _
    unfold headerGet headerValues headerSet
    rw [valuesCanonKey_setCanonKey_self]

/-- C8: RoundTrip returns exactly the base round tripper verdict on the
forwarded clone: an error comes back as that very error, a response as that
very response, with nothing wrapped, retried, suppressed, or added. -/
theorem claim_C8_forwards_outcome :
    ∀ (ρ ε : Type) (t : CopilotTransport ρ ε) (req : Request),
      CopilotTransport.roundTrip t req = t.base (forwardedRequest req)
      ∧ (∀ e : ε, t.base (forwardedRequest req) = Except.error e →
          CopilotTransport.roundTrip t req = Except.error e)
      ∧ (∀ r : ρ, t.base (forwardedRequest req) = Except.ok r →
          CopilotTransport.roundTrip t req = Except.ok r) := by
  intro ρ ε t req
  exact ⟨rfl, fun _ he => he, fun _ hr => hr⟩

/-- C8 witness: a base executor that always fails has its error surface
verbatim through the transport. -/
theorem claim_C8_forwards_outcome_witness :
    CopilotTransport.roundTrip
        (⟨fun _ => Except.error "boom"⟩ : CopilotTransport Nat String) ⟨[], ""⟩
      = Except.error "boom" :=
  (claim_C8_forwards_outcome Nat String ⟨fun _ => Except.error "boom"⟩ ⟨[], ""⟩).2.1 "boom" rfl

/-- C4: the built request has no tools field at all when search is disabled,
and exactly one web_search_preview tool when it is enabled, whose
UserLocation is the approximate location with the given timezone exactly when
searchLocation is non-empty and is omitted entirely when it is empty. -/
theorem claim_C4_tools (msgs : List ChatMessage) (opts : ChatOptions) :
    (opts.search = false → (buildResponseParams msgs opts).tools = none)
    ∧ (opts.search = true →
        (buildResponseParams msgs opts).tools =
          some [⟨"web_search_preview",
            if opts.searchLocation = "" then none
            else some ⟨"approximate", some opts.searchLocation⟩⟩]) := by
  constructor
  · intro h; simp [buildResponseParams, h]
  · intro h
    by_cases hl : opts.searchLocation = "" <;> simp [buildResponseParams, h, hl]

/-- C4 witness: with search on and a timezone the single tool carries the
approximate location; with search off the tools field is nil. -/
theorem claim_C4_tools_witness :
    (buildResponseParams [] ⟨"gpt-4o", 1, 1, false, 0, true, "America/Los_Angeles"⟩).tools
      = some [⟨"web_search_preview", some ⟨"approximate", some "America/Los_Angeles"⟩⟩]
    ∧ (buildResponseParams [] ⟨"gpt-4o", 1, 1, false, 0, false, ""⟩).tools = none := by
  constructor
  · have h2 :=
      (claim_C4_tools [] ⟨"gpt-4o", 1, 1, false, 0, true, "America/Los_Angeles"⟩).2 rfl
    simpa using h2
  · exact (claim_C4_tools [] ⟨"gpt-4o", 1, 1, false, 0, false, ""⟩).1 rfl

/-- C5: the built request carries maxOutputTokens exactly when maxTokens is
nonzero: it is absent (none, never zero) for maxTokens unset or zero, and is
50 for maxTokens 50. -/
theorem claim_C5_max_tokens (msgs : List ChatMessage) (opts : ChatOptions) :
    ((buildResponseParams msgs opts).maxOutputTokens = none ↔ opts.maxTokens = 0)
    ∧ (opts.maxTokens = 50 → (buildResponseParams msgs opts).maxOutputTokens = some 50) := by
  constructor
  · by_cases h : opts.maxTokens = 0 <;> simp [buildResponseParams, h]
  · intro h; simp [buildResponseParams, h]

/-- C5 witness: maxTokens 50 yields value 50, maxTokens 0 yields absent. -/
theorem claim_C5_max_tokens_witness :
    (buildResponseParams [] ⟨"m", 1, 1, false, 50, false, ""⟩).maxOutputTokens = some 50
    ∧ (buildResponseParams [] ⟨"m", 1, 1, false, 0, false, ""⟩).maxOutputTokens = none :=
  ⟨(claim_C5_max_tokens [] ⟨"m", 1, 1, false, 50, false, ""⟩).2 rfl,
   (claim_C5_max_tokens [] ⟨"m", 1, 1, false, 0, false, ""⟩).1.mpr rfl⟩

end Fabric
